import Mathlib

/-!
Formal model of the aishe client code: `RAGAPIClient` from `api_client.py`
and `RAGCLI` from `cli.py`, with theorems about the error taxonomy, the
error-message contents, and the interactive-session control flow.

Modelling conventions:
* HTTP traffic is abstracted to a `NetResult` per request: connection
  failure, timeout, or a concrete response (status, parsed JSON body when
  the body parses, raw body text).
* Parsed JSON is the inductive `Json`; numbers are rationals.
* Python exceptions escaping a client operation are the inductive
  `PyError`, one constructor per exception class that can escape.
* Strings are Lean strings; Python `str.strip`, `str.lower`,
  `str.rstrip` and f-string formatting are modelled explicitly.
-/

set_option linter.unusedVariables false

/-- JSON values, as produced by parsing an HTTP response body. Numbers are
modelled as rationals. -/
inductive Json where
  | null : Json
  | bool (b : Bool) : Json
  | num (q : Rat) : Json
  | str (s : String) : Json
  | arr (elems : List Json) : Json
  | obj (fields : List (String × Json)) : Json

/-- Whitespace predicate used by strip, modelling Python str.strip default. -/
def wsp (c : Char) : Bool := c.isWhitespace

/-- Drop leading whitespace. -/
def stripL (l : List Char) : List Char := l.dropWhile wsp

/-- Drop trailing whitespace. -/
def stripR (l : List Char) : List Char := (l.reverse.dropWhile wsp).reverse

/-- Model of Python str.strip(): remove leading and trailing whitespace. -/
def pyStrip (s : String) : String := ⟨stripR (stripL s.data)⟩

/-- Model of Python str.lower(), sufficient for the ASCII exit keywords. -/
def pyLower (s : String) : String := ⟨s.data.map Char.toLower⟩

/-- Model of Python str.rstrip with a slash argument: drop every trailing
slash. -/
def rstripSlash (s : String) : String :=
  ⟨(s.data.reverse.dropWhile (fun c => c == '/')).reverse⟩

/-- Substring test: does sub occur contiguously inside s. -/
def strContains (s sub : String) : Bool :=
  (List.range (s.data.length + 1)).any (fun i => sub.data.isPrefixOf (s.data.drop i))

/-- First binding of a key in a parsed JSON object. Objects obtained from
Python json parsing have unique keys, so first-match lookup coincides with
Python dict access. -/
def lookupField (fields : List (String × Json)) (k : String) : Option Json :=
  match fields with
  | [] => none
  | (k2, v) :: rest => if k2 = k then some v else lookupField rest k

/-- Model of Python subscription x[k] on a parsed JSON value: a missing key
raises KeyError, a non-dict value raises TypeError (exact Python message
texts abbreviated; no theorem depends on them). -/
def getItem (j : Json) (k : String) : Except String Json :=
  match j with
  | .obj fields =>
    match lookupField fields k with
    | some v => .ok v
    | none => .error ("KeyError: " ++ k)
  | _ => .error "TypeError: value is not subscriptable"

/-- Model of Python iteration over a parsed JSON value: lists yield their
elements, dicts yield their keys, strings yield one-character strings, and
every other value raises TypeError. -/
def pyIter (j : Json) : Except String (List Json) :=
  match j with
  | .arr elems => .ok elems
  | .obj fields => .ok (fields.map (fun f => Json.str f.1))
  | .str s => .ok (s.data.map (fun c => Json.str ⟨[c]⟩))
  | _ => .error "TypeError: value is not iterable"

/-- Model of Python str() on a float value represented as a rational:
integral values render with a trailing .0 as Python floats do. -/
def floatStr (q : Rat) : String :=
  if q.den = 1 then toString q.num ++ ".0"
  else toString q.num ++ "/" ++ toString q.den

/-- Model of Python str() on a parsed JSON value. Only the string case is
relied on by a theorem; the other cases are schematic renderings. -/
def pyStr : Json → String
  | .str s => s
  | .num q => floatStr q
  | .bool b => if b then "True" else "False"
  | .null => "None"
  | .arr _ => "<list>"
  | .obj _ => "<dict>"

/-- The exception kinds that can escape the RAGAPIClient operations, one
constructor per Python exception class. valueError models Python ValueError
and is the InvalidInput kind of the error taxonomy; serverNotReachableError
and serverError model the two subclasses of APIClientError; apiClientError
is an instance of the base class itself, the generic ClientError kind. -/
inductive PyError where
  | valueError (msg : String) : PyError
  | serverNotReachableError (msg : String) : PyError
  | serverError (msg : String) : PyError
  | apiClientError (msg : String) : PyError
deriving DecidableEq

/-- An HTTP response: the status code, the JSON parse of the body when the
body parses (what response.json() would return), and the raw body text
(response.text). -/
structure HttpResponse where
  status : Nat
  jsonBody : Option Json
  text : String

/-- Outcome of one HTTP request as seen through httpx: connection failure
(httpx.ConnectError), exceeded timeout (httpx.TimeoutException), or a
delivered response. -/
inductive NetResult where
  | connectError : NetResult
  | timeout : NetResult
  | ok (r : HttpResponse) : NetResult

/-- RAGAPIClient construction state: the normalized base_url and the
timeout in seconds. -/
structure Client where
  base_url : String
  timeout : Rat
deriving DecidableEq

/-- RAGAPIClient.__init__: use the explicit override when given, else the
AISHE_API_URL environment variable, else http://localhost:8000; trailing
slashes are stripped; default timeout 120 seconds. -/
def mkClient (base_url : Option String) (envAisheApiUrl : Option String)
    (timeout : Rat) : Client :=
  ⟨rstripSlash (match base_url with
    | some u => u
    | none =>
      match envAisheApiUrl with
      | some u => u
      | none => "http://localhost:8000"), timeout⟩

/-- The client built with no override, no environment variable and the
default timeout. -/
def defaultClient : Client := mkClient none none 120

/-- httpx Response.raise_for_status succeeds exactly on 2xx statuses. -/
def is2xx (status : Nat) : Bool := 200 ≤ status && status < 300

/-- check_health message for httpx.ConnectError. -/
def healthConnectMsg (c : Client) : String :=
  "Cannot connect to server at " ++ c.base_url ++ ". Make sure the server is running."

/-- check_health message for httpx.TimeoutException. -/
def healthTimeoutMsg (c : Client) : String :=
  "Request to " ++ c.base_url ++ " timed out."

/-- check_health message for httpx.HTTPStatusError. -/
def healthStatusMsg (status : Nat) : String :=
  "Server returned error: " ++ toString status

/-- Stand-in for the message of the ValueError risen by response.json() on
a body that is not valid JSON (the concrete Python text depends on the
body; no theorem depends on this text). -/
def jsonDecodeMsg : String := "Expecting value: line 1 column 1 (char 0)"

/-- APIHealth dataclass. The Python dataclass performs no type validation,
so each field holds whatever JSON value the server sent at its key. -/
structure APIHealth where
  status : Json
  ollama_accessible : Json
  message : Option Json

/-- RAGAPIClient.check_health: one GET to /health against one network
outcome. The except clauses of the source are mirrored: ConnectError and
TimeoutException become ServerNotReachableError, a non-2xx status becomes
ServerError via raise_for_status, and every other failure (JSON decode
failure, missing field, non-dict body) is wrapped as APIClientError by the
final except Exception clause. -/
def check_health (c : Client) (net : NetResult) : Except PyError APIHealth :=
  match net with
  | .connectError => .error (.serverNotReachableError (healthConnectMsg c))
  | .timeout => .error (.serverNotReachableError (healthTimeoutMsg c))
  | .ok r =>
    if is2xx r.status then
      match r.jsonBody with
      | none => .error (.apiClientError ("Unexpected error: " ++ jsonDecodeMsg))
      | some data =>
        match getItem data "status" with
        | .error m => .error (.apiClientError ("Unexpected error: " ++ m))
        | .ok st =>
          match getItem data "ollama_accessible" with
          | .error m => .error (.apiClientError ("Unexpected error: " ++ m))
          | .ok oa =>
            Except.ok ⟨st, oa,
              match data with
              | .obj fields => lookupField fields "message"
              | _ => none⟩
    else .error (.serverError (healthStatusMsg r.status))

/-- ask_question message for httpx.ConnectError. -/
def askConnectMsg (c : Client) : String :=
  "Cannot connect to server at " ++ c.base_url ++
    ". Make sure the server is running with: nix run .#server"

/-- ask_question message for httpx.TimeoutException. -/
def askTimeoutMsg (c : Client) : String :=
  "Request timed out after " ++ floatStr c.timeout ++
    " seconds. The question might be too complex."

/-- ask_question message for httpx.HTTPStatusError. -/
def askStatusMsg (status : Nat) (detail : String) : String :=
  "Server error (" ++ toString status ++ "): " ++ detail

/-- Error-detail extraction for a non-2xx ask response: parse the body as
JSON and read the detail key, defaulting to str() of the parsed value; the
bare except clause turns every failure in there (unparseable body, or a
non-dict JSON value whose .get raises AttributeError) into the raw
response text. -/
def errorDetail (r : HttpResponse) : String :=
  match r.jsonBody with
  | some (.obj fields) =>
    match lookupField fields "detail" with
    | some d => pyStr d
    | none => pyStr (.obj fields)
  | _ => r.text

/-- One converted source dict as built by ask_question: the values found at
the number, title and url keys of one element of the sources array. -/
structure SourceDict where
  number : Json
  title : Json
  url : Json

/-- APIAnswer dataclass; like APIHealth it performs no type or range
validation on its fields. -/
structure APIAnswer where
  answer : Json
  sources : List SourceDict
  processing_time : Json

/-- The source-conversion loop of ask_question: from each iterated element
take the values at number, title and url, in order, preserving the order of
the elements; the first subscription failure aborts the whole loop. -/
def convertSources : List Json → Except String (List SourceDict)
  | [] => .ok []
  | el :: rest =>
    match getItem el "number" with
    | .error m => .error m
    | .ok n =>
      match getItem el "title" with
      | .error m => .error m
      | .ok t =>
        match getItem el "url" with
        | .error m => .error m
        | .ok u =>
          match convertSources rest with
          | .error m => .error m
          | .ok tail => .ok (⟨n, t, u⟩ :: tail)

/-- The success-path body of ask_question after response.json(): build the
sources list from the value at key sources, then read answer and
processing_time. Any KeyError/TypeError raised here is reported as a
message for the except Exception clause. -/
def parseAnswer (data : Json) : Except String APIAnswer :=
  match getItem data "sources" with
  | .error m => .error m
  | .ok srcVal =>
    match pyIter srcVal with
    | .error m => .error m
    | .ok elems =>
      match convertSources elems with
      | .error m => .error m
      | .ok sources =>
        match getItem data "answer" with
        | .error m => .error m
        | .ok ans =>
          match getItem data "processing_time" with
          | .error m => .error m
          | .ok pt => .ok ⟨ans, sources, pt⟩

/-- Observable outcome of one ask_question call: the returned value or the
escaping exception, the number of HTTP requests issued, and the question
string sent as the request payload (none when no request was issued). -/
structure AskOutcome where
  result : Except PyError APIAnswer
  calls : Nat
  sentQuestion : Option String

/-- RAGAPIClient.ask_question: POST to /api/v1/ask with the stripped
question as payload, against one network outcome. The empty-question
ValueError is risen before the try block, hence before any request. Inside
the try the except clauses are mirrored in source order; note that the
except ValueError clause re-raises unchanged, so the ValueError risen by
response.json() on a malformed 2xx body escapes as ValueError instead of
being wrapped as APIClientError by the final except Exception clause. -/
def ask_question (c : Client) (question : String) (net : NetResult) : AskOutcome :=
  if question = "" ∨ pyStrip question = "" then
    ⟨.error (.valueError "Question cannot be empty"), 0, none⟩
  else
    match net with
    | .connectError =>
      ⟨.error (.serverNotReachableError (askConnectMsg c)), 1, some (pyStrip question)⟩
    | .timeout =>
      ⟨.error (.serverNotReachableError (askTimeoutMsg c)), 1, some (pyStrip question)⟩
    | .ok r =>
      if is2xx r.status then
        match r.jsonBody with
        | none => ⟨.error (.valueError jsonDecodeMsg), 1, some (pyStrip question)⟩
        | some data =>
          match parseAnswer data with
          | .ok a => ⟨.ok a, 1, some (pyStrip question)⟩
          | .error m =>
            ⟨.error (.apiClientError ("Unexpected error: " ++ m)), 1, some (pyStrip question)⟩
      else
        ⟨.error (.serverError (askStatusMsg r.status (errorDetail r))), 1, some (pyStrip question)⟩

/-- The exit keywords of the interactive loop. -/
def exitKeywords : List String := ["quit", "exit", "q"]

/-- The exit test of the loop: the lowercased (already stripped) input is
one of the exit keywords. -/
def isExitKeyword (q : String) : Bool := exitKeywords.contains (pyLower q)

/-- One event at the blocking console read of an iteration: either a line
of input together with the network outcome the server would give for the
ask request of this iteration (consumed only when a request is issued), or
a KeyboardInterrupt arriving at the read. -/
inductive InEvent where
  | line (s : String) (net : NetResult) : InEvent
  | interrupt : InEvent

/-- How a session ends: process exit with a code, or the event script ran
out while the loop was still prompting. -/
inductive SessionEnd where
  | exited (code : Nat) : SessionEnd
  | ranOut : SessionEnd
deriving DecidableEq

/-- Observable trace of one RAGCLI.run call: how it ended, how many console
reads it began, which question strings it passed to ask_question (in
order), and how many times it invoked the close operation of the client. -/
structure RunResult where
  endState : SessionEnd
  prompts : Nat
  askedQuestions : List String
  closeCalls : Nat
deriving DecidableEq

/-- The while loop of RAGCLI.run. Each iteration strips the input line; an
exit keyword breaks out of the loop (process then ends with code 0), an
empty line re-enters the prompt, and any other line is passed to
ask_question. Every exception class risen by ask_question is caught by one
of the except clauses of the loop body, which display and continue, so the
outcome of the ask never alters control flow. RAGCLI never invokes
RAGAPIClient.close, so closeCalls stays 0 on every path. -/
def runLoop (c : Client) : List InEvent → RunResult
  | [] => ⟨.ranOut, 0, [], 0⟩
  | .interrupt :: _ => ⟨.exited 0, 1, [], 0⟩
  | .line s net :: rest =>
    let question := pyStrip s
    if isExitKeyword question then ⟨.exited 0, 1, [], 0⟩
    else if question = "" then
      let r := runLoop c rest
      ⟨r.endState, r.prompts + 1, r.askedQuestions, r.closeCalls⟩
    else
      let _asked := ask_question c question net
      let r := runLoop c rest
      ⟨r.endState, r.prompts + 1, question :: r.askedQuestions, r.closeCalls⟩

/-- RAGCLI.run: print the banner, run the startup health probe, and only
then enter the loop. A ServerNotReachableError from the probe prints the
error and calls sys.exit(1) before any console read; every other probe
outcome (success with any status, or any other exception, which the except
Exception clause turns into a warning) falls through to the loop. -/
def run (c : Client) (healthNet : NetResult) (events : List InEvent) : RunResult :=
  match check_health c healthNet with
  | .error (.serverNotReachableError _) => ⟨.exited 1, 0, [], 0⟩
  | _ => runLoop c events

/-- A healthy /health response used by concrete runs. -/
def healthyBody : Json :=
  .obj [("status", .str "healthy"), ("ollama_accessible", .bool true)]

/-- The network outcome delivering a healthy /health response. -/
def healthyNet : NetResult := .ok ⟨200, some healthyBody, ""⟩

/-- dropWhile never lengthens a list. -/
theorem length_dropWhile_le2 (p : Char → Bool) (l : List Char) :
    (l.dropWhile p).length ≤ l.length := by
  induction l with
  | nil => simp
  | cons a t ih =>
    cases hp : p a
    · simp [List.dropWhile_cons, hp]
    · simp [List.dropWhile_cons, hp]
      omega

/-- dropWhile is idempotent. -/
theorem dropWhile_dropWhile_self (p : Char → Bool) (l : List Char) :
    (l.dropWhile p).dropWhile p = l.dropWhile p := by
  induction l with
  | nil => rfl
  | cons a t ih =>
    cases hp : p a
    · simp [List.dropWhile_cons, hp]
    · simp [List.dropWhile_cons, hp, ih]

/-- A list with no leading whitespace keeps that property when a suffix is
cut off. Stated for the append decomposition used below. -/
theorem stripL_of_stripL_append (x t : List Char) (h : stripL (x ++ t) = x ++ t) :
    stripL x = x := by
  cases x with
  | nil => rfl
  | cons a x2 =>
    unfold stripL at h ⊢
    cases hw : wsp a
    · simp [List.dropWhile_cons, hw]
    · exfalso
      rw [List.cons_append, List.dropWhile_cons_of_pos hw] at h
      have hlen := congrArg List.length h
      have hle := length_dropWhile_le2 wsp (x2 ++ t)
      simp [List.length_append] at hlen hle
      omega

/-- stripR only cuts a suffix: every list is stripR of itself followed by
the removed whitespace tail. -/
theorem stripR_append_decomp (y : List Char) : ∃ t, y = stripR y ++ t := by
  have hsuf : y.reverse.dropWhile wsp <:+ y.reverse := List.dropWhile_suffix wsp
  obtain ⟨t, ht⟩ := hsuf
  refine ⟨t.reverse, ?_⟩
  have := congrArg List.reverse ht
  simp at this
  conv_lhs => rw [← this]
  simp [stripR]

/-- stripR is idempotent. -/
theorem stripR_stripR (y : List Char) : stripR (stripR y) = stripR y := by
  unfold stripR
  rw [List.reverse_reverse, dropWhile_dropWhile_self]

/-- Python strip is idempotent. -/
theorem pyStrip_idem (s : String) : pyStrip (pyStrip s) = pyStrip s := by
  unfold pyStrip
  have hy : stripL (stripL s.data) = stripL s.data :=
    dropWhile_dropWhile_self wsp s.data
  obtain ⟨t, ht⟩ := stripR_append_decomp (stripL s.data)
  have hnolead : stripL (stripR (stripL s.data)) = stripR (stripL s.data) := by
    apply stripL_of_stripL_append _ t
    rw [← ht]
    exact hy
  show String.mk (stripR (stripL (stripR (stripL s.data)))) = String.mk (stripR (stripL s.data))
  rw [hnolead, stripR_stripR]

/-- If the character data of s decomposes around the data of sub, then
strContains finds sub in s. -/
theorem strContains_of_data (s sub : String) (pre post : List Char)
    (h : s.data = pre ++ (sub.data ++ post)) : strContains s sub = true := by
  unfold strContains
  rw [List.any_eq_true]
  refine ⟨pre.length, ?_, ?_⟩
  · rw [List.mem_range]
    have hlen := congrArg List.length h
    rw [List.length_append, List.length_append] at hlen
    omega
  · rw [h, List.drop_left]
    simp

/-- strContains finds a middle factor of a concatenation. -/
theorem strContains_mid (a sub b : String) : strContains (a ++ sub ++ b) sub = true := by
  apply strContains_of_data _ _ a.data b.data
  simp [List.append_assoc]

/-- The two timeout messages differ textually for every pair of
configurations: they already disagree at character position 9. -/
theorem healthTimeoutMsg_ne_askTimeoutMsg (c c2 : Client) :
    healthTimeoutMsg c ≠ askTimeoutMsg c2 := by
  intro h
  have hd : (healthTimeoutMsg c).data = (askTimeoutMsg c2).data := congrArg String.data h
  have h1 : (healthTimeoutMsg c).data.take 11 = "Request to ".data := by
    show (("Request to " ++ c.base_url ++ " timed out.").data).take 11 = _
    simp only [String.data_append, List.append_assoc]
    exact List.take_left' (by decide)
  have h2 : (askTimeoutMsg c2).data.take 11 = "Request tim".data := by
    show (("Request timed out after " ++ floatStr c2.timeout ++
        " seconds. The question might be too complex.").data).take 11 = _
    simp only [String.data_append, List.append_assoc]
    rw [List.take_append_of_le_length (by decide)]
    decide
  rw [hd, h2] at h1
  exact absurd h1 (by decide)

/-- The sources array a server would send: one JSON object per source with
the keys number, title, url bound to the given values, in order. -/
def sourcesJson (srcs : List (Json × Json × Json)) : Json :=
  .arr (srcs.map (fun x => Json.obj [("number", x.1), ("title", x.2.1), ("url", x.2.2)]))

/-- A well-formed /api/v1/ask response body. -/
def answerBody (ans : Json) (srcs : List (Json × Json × Json)) (pt : Json) : Json :=
  .obj [("answer", ans), ("sources", sourcesJson srcs), ("processing_time", pt)]

/-- The conversion loop maps the constructed sources array to the source
dicts with the same values in the same order. -/
theorem convertSources_map (srcs : List (Json × Json × Json)) :
    convertSources (srcs.map (fun x => Json.obj [("number", x.1), ("title", x.2.1), ("url", x.2.2)]))
      = .ok (srcs.map (fun x => ⟨x.1, x.2.1, x.2.2⟩)) := by
  induction srcs with
  | nil => rfl
  | cons x rest ih =>
    have h1 : getItem (Json.obj [("number", x.1), ("title", x.2.1), ("url", x.2.2)]) "number"
        = .ok x.1 := rfl
    have h2 : getItem (Json.obj [("number", x.1), ("title", x.2.1), ("url", x.2.2)]) "title"
        = .ok x.2.1 := rfl
    have h3 : getItem (Json.obj [("number", x.1), ("title", x.2.1), ("url", x.2.2)]) "url"
        = .ok x.2.2 := rfl
    simp only [List.map_cons, convertSources, h1, h2, h3, ih]

/-- A non-empty-after-strip question makes the precondition test of
ask_question false. -/
theorem askGuard_false {q : String} (hq : pyStrip q ≠ "") :
    ¬(q = "" ∨ pyStrip q = "") := by
  rintro (rfl | h2)
  · exact hq rfl
  · exact hq h2

/-- ask_question on a 2xx response with a well-formed body: the payload is
the stripped question and the parsed answer carries the server values
unchanged, sources in received order. -/
theorem ask_question_success (c : Client) (q : String) (hq : pyStrip q ≠ "")
    (ans pt : Json) (srcs : List (Json × Json × Json))
    (status : Nat) (hst : is2xx status = true) (text : String) :
    ask_question c q (.ok ⟨status, some (answerBody ans srcs pt), text⟩)
      = ⟨.ok ⟨ans, srcs.map (fun x => ⟨x.1, x.2.1, x.2.2⟩), pt⟩, 1, some (pyStrip q)⟩ := by
  unfold ask_question
  rw [if_neg (askGuard_false hq)]
  show (if is2xx status = true then _ else _) = _
  rw [if_pos hst]
  have hs : getItem (answerBody ans srcs pt) "sources" = .ok (sourcesJson srcs) := rfl
  have ha : getItem (answerBody ans srcs pt) "answer" = .ok ans := rfl
  have hp : getItem (answerBody ans srcs pt) "processing_time" = .ok pt := rfl
  have hi : pyIter (sourcesJson srcs)
      = .ok (srcs.map (fun x => Json.obj [("number", x.1), ("title", x.2.1), ("url", x.2.2)])) := rfl
  have hparse : parseAnswer (answerBody ans srcs pt)
      = .ok ⟨ans, srcs.map (fun x => ⟨x.1, x.2.1, x.2.2⟩), pt⟩ := by
    simp only [parseAnswer, hs, hi, convertSources_map, ha, hp]
  simp only [hparse]

/-- C1: a question that is empty after stripping makes ask_question fail
with the ValueError (InvalidInput) raised before the try block, with zero
network calls issued, and the very same error escapes for every possible
network outcome: it is never reclassified as a server or network failure
and never re-wrapped by the generic fallback clause. -/
theorem c1_empty_question_fails_locally (c : Client) (q : String) (net : NetResult)
    (h : pyStrip q = "") :
    ask_question c q net
      = ⟨.error (.valueError "Question cannot be empty"), 0, none⟩ := by
  unfold ask_question
  rw [if_pos (Or.inr h)]

/-- Witness for C1 at a whitespace-only question and a concrete network
outcome. -/
theorem c1_empty_question_fails_locally_witness :
    pyStrip "   " = "" ∧
      ask_question defaultClient "   " NetResult.connectError
        = ⟨.error (.valueError "Question cannot be empty"), 0, none⟩ :=
  ⟨by decide, c1_empty_question_fails_locally defaultClient "   " NetResult.connectError (by decide)⟩

/-- C2: evaluation of the code at the failing input. A 2xx ask response
whose body is not valid JSON makes response.json() raise ValueError, which
the bare except ValueError clause re-raises unchanged, so ask_question
fails with the InvalidInput kind instead of the generic APIClientError;
check_health on the same response wraps the identical failure as
APIClientError, as the claim demands for both operations. -/
theorem c2_malformed_json_escapes_as_valueError :
    (ask_question defaultClient "hi" (.ok ⟨200, none, "not json"⟩)).result
        = .error (.valueError jsonDecodeMsg) ∧
      check_health defaultClient (.ok ⟨200, none, "not json"⟩)
        = .error (.apiClientError ("Unexpected error: " ++ jsonDecodeMsg)) :=
  ⟨rfl, rfl⟩

/-- C3 counterexample: at the default configuration, the health-probe
timeout message is a ServerNotReachableError whose text does not state the
timeout value (neither as the Python float rendering 120.0 nor as the bare
digits 120), contradicting the claim that it states the timeout value. -/
theorem c3_health_timeout_msg_lacks_value :
    check_health defaultClient .timeout
        = .error (.serverNotReachableError (healthTimeoutMsg defaultClient)) ∧
      strContains (healthTimeoutMsg defaultClient) (floatStr defaultClient.timeout) = false ∧
      strContains (healthTimeoutMsg defaultClient) "120" = false :=
  ⟨rfl, by decide, by decide⟩

/-- C3 (amended): on a timeout both operations fail with
ServerNotReachableError; the health-probe message names the target address
(not the timeout value), while the ask message states the timeout value
and suggests the question may be too complex; the two messages are
textually distinct for every configuration. -/
theorem c3_timeout_classification (c : Client) (q : String) (hq : pyStrip q ≠ "") :
    check_health c .timeout = .error (.serverNotReachableError (healthTimeoutMsg c)) ∧
    (ask_question c q .timeout).result = .error (.serverNotReachableError (askTimeoutMsg c)) ∧
    strContains (healthTimeoutMsg c) c.base_url = true ∧
    strContains (askTimeoutMsg c) (floatStr c.timeout) = true ∧
    strContains (askTimeoutMsg c) "The question might be too complex." = true ∧
    healthTimeoutMsg c ≠ askTimeoutMsg c := by
  refine ⟨rfl, ?_, ?_, ?_, ?_, healthTimeoutMsg_ne_askTimeoutMsg c c⟩
  · unfold ask_question
    rw [if_neg (askGuard_false hq)]
  · apply strContains_of_data _ _ "Request to ".data " timed out.".data
    simp [healthTimeoutMsg, List.append_assoc]
  · apply strContains_of_data _ _ "Request timed out after ".data
      " seconds. The question might be too complex.".data
    simp [askTimeoutMsg, List.append_assoc]
  · apply strContains_of_data _ _
      ("Request timed out after ".data ++ ((floatStr c.timeout).data ++ " seconds. ".data)) []
    simp [askTimeoutMsg, List.append_assoc]

/-- Witness for C3 (amended) at the default configuration and a concrete
question. -/
theorem c3_timeout_classification_witness :
    pyStrip "hi" ≠ "" ∧
      (check_health defaultClient .timeout
          = .error (.serverNotReachableError (healthTimeoutMsg defaultClient)) ∧
        (ask_question defaultClient "hi" .timeout).result
          = .error (.serverNotReachableError (askTimeoutMsg defaultClient)) ∧
        strContains (healthTimeoutMsg defaultClient) defaultClient.base_url = true ∧
        strContains (askTimeoutMsg defaultClient) (floatStr defaultClient.timeout) = true ∧
        strContains (askTimeoutMsg defaultClient) "The question might be too complex." = true ∧
        healthTimeoutMsg defaultClient ≠ askTimeoutMsg defaultClient) :=
  ⟨by decide, c3_timeout_classification defaultClient "hi" (by decide)⟩

/-- The interactive loop never invokes the close operation of the client:
no iteration path contains a close call. -/
theorem runLoop_closeCalls (c : Client) (evs : List InEvent) :
    (runLoop c evs).closeCalls = 0 := by
  induction evs with
  | nil => rfl
  | cons e rest ih =>
    cases e with
    | interrupt => rfl
    | line s net =>
      simp only [runLoop]
      split
      · rfl
      · split
        · simpa using ih
        · simpa using ih

/-- RAGCLI.run never invokes the close operation of the client on any
path, the fatal startup path included. -/
theorem run_closeCalls (c : Client) (healthNet : NetResult) (events : List InEvent) :
    (run c healthNet events).closeCalls = 0 := by
  unfold run
  split
  · rfl
  · exact runLoop_closeCalls c events

/-- C4 counterexample: with a healthy startup probe and the user entering
quit at the first prompt, the session ends with exit code 0 but the
connection resource is released zero times, not exactly once: RAGCLI.run
never calls RAGAPIClient.close on any path. -/
theorem c4_quit_releases_zero_times :
    (run defaultClient healthyNet [.line "quit" .connectError]).endState
        = .exited 0 ∧
      (run defaultClient healthyNet [.line "quit" .connectError]).closeCalls = 0 := by
  constructor
  · rfl
  · rfl

/-- C4 (amended): on every termination path of the session the connection
resource is explicitly released zero times, never once — RAGCLI.run does
not invoke close; when the startup probe is not fatal and the user enters
quit at the prompt, the session still ends with exit code 0. -/
theorem c4_no_explicit_release (c : Client) (healthNet : NetResult)
    (events : List InEvent) (net : NetResult) (rest : List InEvent)
    (hok : ∀ m, check_health c healthNet ≠ .error (.serverNotReachableError m)) :
    (run c healthNet events).closeCalls = 0 ∧
      (run c healthNet (.line "quit" net :: rest)).endState = .exited 0 := by
  refine ⟨run_closeCalls c healthNet events, ?_⟩
  unfold run
  split
  · rename_i m heq
    exact absurd heq (hok m)
  · rfl

/-- Witness for C4 (amended): healthy startup, quit entered at the first
prompt. -/
theorem c4_no_explicit_release_witness :
    (∀ m, check_health defaultClient healthyNet
        ≠ .error (.serverNotReachableError m)) ∧
      ((run defaultClient healthyNet [.line "quit" .connectError]).closeCalls = 0 ∧
        (run defaultClient healthyNet
            [.line "quit" .connectError]).endState = .exited 0) := by
  have hok : ∀ m, check_health defaultClient healthyNet
      ≠ .error (.serverNotReachableError m) := by
    intro m h
    rw [show check_health defaultClient healthyNet
        = Except.ok ⟨Json.str "healthy", Json.bool true, none⟩ from rfl] at h
    exact Except.noConfusion h
  exact ⟨hok, c4_no_explicit_release defaultClient healthyNet
    [.line "quit" .connectError] .connectError [] hok⟩

/-- C5: a ServerNotReachableError from the startup health probe makes the
session exit with code 1 before any console read; every other probe error
is non-fatal and the session proceeds into the prompt loop unchanged. -/
theorem c5_startup_gate (c : Client) (net : NetResult) (events : List InEvent) :
    (∀ m, check_health c net = .error (.serverNotReachableError m) →
        run c net events = ⟨.exited 1, 0, [], 0⟩) ∧
      (∀ e, check_health c net = .error e →
        (∀ m, e ≠ .serverNotReachableError m) →
        run c net events = runLoop c events) := by
  constructor
  · intro m h
    unfold run
    rw [h]
  · intro e h hne
    unfold run
    rw [h]
    cases e with
    | valueError m => rfl
    | serverNotReachableError m => exact absurd rfl (hne m)
    | serverError m => rfl
    | apiClientError m => rfl

/-- Witness for C5: a connection-refused probe exits with code 1 and zero
prompts; a 500-status probe (a ServerError, not ServerNotReachableError)
falls through to the loop. -/
theorem c5_startup_gate_witness :
    check_health defaultClient .connectError
        = .error (.serverNotReachableError (healthConnectMsg defaultClient)) ∧
      run defaultClient .connectError [] = ⟨.exited 1, 0, [], 0⟩ ∧
      run defaultClient (.ok ⟨500, none, ""⟩) [] = runLoop defaultClient [] :=
  ⟨rfl,
    (c5_startup_gate defaultClient .connectError []).1
      (healthConnectMsg defaultClient) rfl,
    (c5_startup_gate defaultClient (.ok ⟨500, none, ""⟩) []).2
      (.serverError (healthStatusMsg 500)) rfl
      (fun m h => PyError.noConfusion h)⟩

/-- Once the precondition test passes, every branch of ask_question issues
exactly one HTTP request. -/
theorem ask_question_calls (c : Client) (q : String) (hq : pyStrip q ≠ "")
    (net : NetResult) : (ask_question c q net).calls = 1 := by
  unfold ask_question
  rw [if_neg (askGuard_false hq)]
  cases net with
  | connectError => rfl
  | timeout => rfl
  | ok r =>
    dsimp only
    by_cases h2 : is2xx r.status = true
    · rw [if_pos h2]
      cases hb : r.jsonBody with
      | none => rfl
      | some data =>
        dsimp only
        cases hp : parseAnswer data <;> rfl
    · rw [if_neg h2]

/-- Once the precondition test passes, every branch of ask_question sends
the stripped question as the request payload. -/
theorem ask_question_sent (c : Client) (q : String) (hq : pyStrip q ≠ "")
    (net : NetResult) : (ask_question c q net).sentQuestion = some (pyStrip q) := by
  unfold ask_question
  rw [if_neg (askGuard_false hq)]
  cases net with
  | connectError => rfl
  | timeout => rfl
  | ok r =>
    dsimp only
    by_cases h2 : is2xx r.status = true
    · rw [if_pos h2]
      cases hb : r.jsonBody with
      | none => rfl
      | some data =>
        dsimp only
        cases hp : parseAnswer data <;> rfl
    · rw [if_neg h2]

/-- C6: every non-2xx status makes ask_question fail with ServerError; the
message carries the numeric status code, the detail value whenever the
body is parseable JSON with a string detail field, and the raw body text
whenever the body is not parseable JSON. -/
theorem c6_server_error_message (c : Client) (q : String) (status : Nat)
    (jb : Option Json) (text : String)
    (hq : pyStrip q ≠ "") (hst : is2xx status = false) :
    ∃ msg, (ask_question c q (.ok ⟨status, jb, text⟩)).result
        = .error (.serverError msg) ∧
      strContains msg (toString status) = true ∧
      (∀ fields d, jb = some (.obj fields) →
        lookupField fields "detail" = some (.str d) → strContains msg d = true) ∧
      (jb = none → strContains msg text = true) := by
  refine ⟨askStatusMsg status (errorDetail ⟨status, jb, text⟩), ?_, ?_, ?_, ?_⟩
  · unfold ask_question
    rw [if_neg (askGuard_false hq)]
    dsimp only
    rw [if_neg (by simp [hst])]
  · apply strContains_of_data _ _ "Server error (".data
      ("): ".data ++ (errorDetail ⟨status, jb, text⟩).data)
    simp [askStatusMsg, List.append_assoc]
  · intro fields d hjb hlook
    subst hjb
    have hdet : errorDetail ⟨status, some (.obj fields), text⟩ = d := by
      unfold errorDetail
      dsimp only
      rw [hlook]
      rfl
    apply strContains_of_data _ _
      ("Server error (".data ++ ((toString status).data ++ "): ".data)) []
    simp [askStatusMsg, hdet, List.append_assoc]
  · intro hjb
    subst hjb
    have hdet : errorDetail ⟨status, none, text⟩ = text := rfl
    apply strContains_of_data _ _
      ("Server error (".data ++ ((toString status).data ++ "): ".data)) []
    simp [askStatusMsg, hdet, List.append_assoc]

/-- Witness for C6: a 404 with a JSON detail body, then a 500 with an
unparseable body. -/
theorem c6_server_error_message_witness :
    (pyStrip "hi" ≠ "" ∧ is2xx 404 = false ∧
      ∃ msg, (ask_question defaultClient "hi"
          (.ok ⟨404, some (.obj [("detail", .str "X")]), "raw"⟩)).result
          = .error (.serverError msg) ∧
        strContains msg (toString 404) = true ∧
        (∀ fields d, some (Json.obj [("detail", Json.str "X")]) = some (.obj fields) →
          lookupField fields "detail" = some (.str d) → strContains msg d = true) ∧
        (some (Json.obj [("detail", Json.str "X")]) = none →
          strContains msg "raw" = true)) ∧
    (∃ msg, (ask_question defaultClient "hi" (.ok ⟨500, none, "plain body"⟩)).result
        = .error (.serverError msg) ∧
      strContains msg (toString 500) = true ∧
      (∀ fields d, (none : Option Json) = some (.obj fields) →
        lookupField fields "detail" = some (.str d) → strContains msg d = true) ∧
      ((none : Option Json) = none → strContains msg "plain body" = true)) :=
  ⟨⟨by decide, by decide,
      c6_server_error_message defaultClient "hi" 404
        (some (.obj [("detail", .str "X")])) "raw" (by decide) (by decide)⟩,
    c6_server_error_message defaultClient "hi" 500 none "plain body"
      (by decide) (by decide)⟩

/-- C7: for every question that is non-empty after stripping, the payload
sent is exactly the stripped question, under every network outcome; and a
well-formed success response round-trips into an Answer whose sources
preserve the received order and the field values number, title, url. -/
theorem c7_trimmed_payload_and_roundtrip (c : Client) (q : String)
    (hq : pyStrip q ≠ "") (ans pt : Json) (srcs : List (Json × Json × Json))
    (status : Nat) (hst : is2xx status = true) (text : String) :
    (∀ net, (ask_question c q net).sentQuestion = some (pyStrip q)) ∧
      ask_question c q (.ok ⟨status, some (answerBody ans srcs pt), text⟩)
        = ⟨.ok ⟨ans, srcs.map (fun x => ⟨x.1, x.2.1, x.2.2⟩), pt⟩, 1, some (pyStrip q)⟩ :=
  ⟨fun net => ask_question_sent c q hq net,
    ask_question_success c q hq ans pt srcs status hst text⟩

/-- Witness for C7: question with surrounding whitespace, one source. -/
theorem c7_trimmed_payload_and_roundtrip_witness :
    pyStrip "  What is the capital of France?  " ≠ "" ∧ is2xx 200 = true ∧
      ((∀ net, (ask_question defaultClient "  What is the capital of France?  " net).sentQuestion
          = some (pyStrip "  What is the capital of France?  ")) ∧
        ask_question defaultClient "  What is the capital of France?  "
            (.ok ⟨200, some (answerBody (.str "Paris")
              [(.num 1, .str "France", .str "http://x")] (.num 1)), ""⟩)
          = ⟨.ok ⟨.str "Paris", [⟨.num 1, .str "France", .str "http://x"⟩], .num 1⟩,
              1, some (pyStrip "  What is the capital of France?  ")⟩) :=
  ⟨by decide, by decide,
    c7_trimmed_payload_and_roundtrip defaultClient
      "  What is the capital of France?  " (by decide)
      (.str "Paris") (.num 1) [(.num 1, .str "France", .str "http://x")]
      200 (by decide) ""⟩

/-- C8: on a connection failure both operations fail with
ServerNotReachableError, and both messages name the configured base
address and tell the operator to make sure the server is running. -/
theorem c8_connection_refused (c : Client) (q : String) (hq : pyStrip q ≠ "") :
    check_health c .connectError
        = .error (.serverNotReachableError (healthConnectMsg c)) ∧
      (ask_question c q .connectError).result
        = .error (.serverNotReachableError (askConnectMsg c)) ∧
      strContains (healthConnectMsg c) c.base_url = true ∧
      strContains (askConnectMsg c) c.base_url = true ∧
      strContains (healthConnectMsg c) "Make sure the server is running" = true ∧
      strContains (askConnectMsg c) "Make sure the server is running" = true := by
  refine ⟨rfl, ?_, ?_, ?_, ?_, ?_⟩
  · unfold ask_question
    rw [if_neg (askGuard_false hq)]
  · apply strContains_of_data _ _ "Cannot connect to server at ".data
      ". Make sure the server is running.".data
    simp [healthConnectMsg, List.append_assoc]
  · apply strContains_of_data _ _ "Cannot connect to server at ".data
      ". Make sure the server is running with: nix run .#server".data
    simp [askConnectMsg, List.append_assoc]
  · apply strContains_of_data _ _
      ("Cannot connect to server at ".data ++ (c.base_url.data ++ ". ".data)) ".".data
    simp [healthConnectMsg, List.append_assoc]
  · apply strContains_of_data _ _
      ("Cannot connect to server at ".data ++ (c.base_url.data ++ ". ".data))
      " with: nix run .#server".data
    simp [askConnectMsg, List.append_assoc]

/-- Witness for C8 at the default configuration. -/
theorem c8_connection_refused_witness :
    pyStrip "hi" ≠ "" ∧
      (check_health defaultClient .connectError
          = .error (.serverNotReachableError (healthConnectMsg defaultClient)) ∧
        (ask_question defaultClient "hi" .connectError).result
          = .error (.serverNotReachableError (askConnectMsg defaultClient)) ∧
        strContains (healthConnectMsg defaultClient) defaultClient.base_url = true ∧
        strContains (askConnectMsg defaultClient) defaultClient.base_url = true ∧
        strContains (healthConnectMsg defaultClient) "Make sure the server is running" = true ∧
        strContains (askConnectMsg defaultClient) "Make sure the server is running" = true) :=
  ⟨by decide, c8_connection_refused defaultClient "hi" (by decide)⟩

/-- The data-model constraints of the specification on an Answer: the
processing time is a number that is at least zero, and every source number
is a number that is at least one. -/
def answerMeetsConstraints (a : APIAnswer) : Prop :=
  (∃ r : Rat, a.processing_time = .num r ∧ 0 ≤ r) ∧
    (∀ s ∈ a.sources, ∃ n : Rat, s.number = .num n ∧ 1 ≤ n)

/-- A response body the client accepts although it violates both
constraints: source number 0 and processing time -1. -/
def badBody : Json :=
  answerBody (.str "A") [(.num 0, .str "T", .str "U")] (.num (-1))

/-- C9 counterexample: ask_question accepts a response with processing
time -1 and source number 0 as well-formed and returns it unchanged, so
the returned Answer violates the data-model constraints: the client
performs no range validation. -/
theorem c9_accepted_answer_violates_constraints :
    (ask_question defaultClient "hi" (.ok ⟨200, some badBody, ""⟩)).result
        = .ok ⟨.str "A", [⟨.num 0, .str "T", .str "U"⟩], .num (-1)⟩ ∧
      ¬ answerMeetsConstraints ⟨.str "A", [⟨.num 0, .str "T", .str "U"⟩], .num (-1)⟩ := by
  refine ⟨rfl, ?_⟩
  rintro ⟨⟨r, hr, hr0⟩, hs⟩
  injection hr with h
  rw [← h] at hr0
  exact absurd hr0 (by norm_num)

/-- C9 (amended): the client copies the server values into the Answer
without any range validation, so the returned Answer satisfies the
data-model constraints exactly when the server payload does: the
constraints are guaranteed only under that assumption on the response. -/
theorem c9_constraints_iff_server_payload (c : Client) (q : String)
    (hq : pyStrip q ≠ "") (ans : Json) (srcs : List (Json × Json × Json))
    (pt : Json) (status : Nat) (hst : is2xx status = true) (text : String) :
    (ask_question c q (.ok ⟨status, some (answerBody ans srcs pt), text⟩)).result
        = .ok ⟨ans, srcs.map (fun x => ⟨x.1, x.2.1, x.2.2⟩), pt⟩ ∧
      ((∃ r : Rat, pt = .num r ∧ 0 ≤ r) →
        (∀ x ∈ srcs, ∃ n : Rat, x.1 = .num n ∧ 1 ≤ n) →
        answerMeetsConstraints ⟨ans, srcs.map (fun x => ⟨x.1, x.2.1, x.2.2⟩), pt⟩) := by
  constructor
  · rw [ask_question_success c q hq ans pt srcs status hst text]
  · intro hpt hsrc
    refine ⟨hpt, ?_⟩
    intro s hs
    rw [List.mem_map] at hs
    obtain ⟨x, hx, rfl⟩ := hs
    obtain ⟨n, hn, hn1⟩ := hsrc x hx
    exact ⟨n, hn, hn1⟩

/-- Witness for C9 (amended): a payload that satisfies the constraints
yields an Answer that satisfies them. -/
theorem c9_constraints_iff_server_payload_witness :
    pyStrip "hi" ≠ "" ∧ is2xx 200 = true ∧
      ((ask_question defaultClient "hi"
          (.ok ⟨200, some (answerBody (.str "A") [(.num 1, .str "T", .str "U")] (.num 2)), ""⟩)).result
          = .ok ⟨.str "A", [⟨.num 1, .str "T", .str "U"⟩], .num 2⟩ ∧
        ((∃ r : Rat, Json.num 2 = .num r ∧ 0 ≤ r) →
          (∀ x ∈ [((Json.num 1 : Json), (Json.str "T" : Json), (Json.str "U" : Json))],
            ∃ n : Rat, x.1 = .num n ∧ 1 ≤ n) →
          answerMeetsConstraints ⟨.str "A", [⟨.num 1, .str "T", .str "U"⟩], .num 2⟩)) :=
  ⟨by decide, by decide,
    c9_constraints_iff_server_payload defaultClient "hi" (by decide)
      (.str "A") [(.num 1, .str "T", .str "U")] (.num 2) 200 (by decide) ""⟩

/-- Every question string the loop passes to ask_question is a fixed point
of strip and non-empty. -/
theorem runLoop_asked_stripped (c : Client) (evs : List InEvent) :
    ∀ q ∈ (runLoop c evs).askedQuestions, pyStrip q = q ∧ q ≠ "" := by
  induction evs with
  | nil => intro q hq; simp [runLoop] at hq
  | cons e rest ih =>
    cases e with
    | interrupt => intro q hq; simp [runLoop] at hq
    | line s net =>
      intro q hq
      simp only [runLoop] at hq
      by_cases h1 : isExitKeyword (pyStrip s) = true
      · rw [if_pos h1] at hq
        simp at hq
      · rw [if_neg h1] at hq
        by_cases h2 : pyStrip s = ""
        · rw [if_pos h2] at hq
          exact ih q hq
        · rw [if_neg h2] at hq
          dsimp only at hq
          rcases List.mem_cons.mp hq with rfl | hmem
          · exact ⟨pyStrip_idem s, h2⟩
          · exact ih q hmem

/-- C10: the interactive loop never invokes ask_question with a string
that is empty after stripping: every question it passes on is already
stripped and non-empty, the precondition test of ask_question is false for
it, and a network request is issued on every such call — the InvalidInput
branch is unreachable from the loop. -/
theorem c10_invalid_input_unreachable (c : Client) (healthNet : NetResult)
    (events : List InEvent) (q : String)
    (hq : q ∈ (run c healthNet events).askedQuestions) :
    pyStrip q = q ∧ ¬(q = "" ∨ pyStrip q = "") ∧
      ∀ net, (ask_question c q net).calls = 1 := by
  have hbase : pyStrip q = q ∧ q ≠ "" := by
    unfold run at hq
    rcases hm : check_health c healthNet with he | hok
    · rw [hm] at hq
      cases he with
      | serverNotReachableError m => exact absurd hq (List.not_mem_nil q)
      | valueError m => exact runLoop_asked_stripped c events q hq
      | serverError m => exact runLoop_asked_stripped c events q hq
      | apiClientError m => exact runLoop_asked_stripped c events q hq
    · rw [hm] at hq
      exact runLoop_asked_stripped c events q hq
  have hne : pyStrip q ≠ "" := by
    rw [hbase.1]
    exact hbase.2
  exact ⟨hbase.1, askGuard_false hne, fun net => ask_question_calls c q hne net⟩

/-- Witness for C10: a run whose loop asks exactly the stripped question
hi. -/
theorem c10_invalid_input_unreachable_witness :
    "hi" ∈ (run defaultClient healthyNet [.line " hi " .connectError]).askedQuestions ∧
      (pyStrip "hi" = "hi" ∧ ¬("hi" = "" ∨ pyStrip "hi" = "") ∧
        ∀ net, (ask_question defaultClient "hi" net).calls = 1) :=
  ⟨by decide,
    c10_invalid_input_unreachable defaultClient healthyNet
      [.line " hi " .connectError] "hi" (by decide)⟩
